import Mathlib

/-!
Verification of the asynchronous geocoding pipeline of libertas-travel.

Shallow embedding of `src/agents/itinerary/mapper.py`, `src/agents/itinerary/models.py`
and `src/geocoding_worker.py` (plus the trip-table functions of `src/database.py` that
the worker calls).  Conventions used throughout:

* Python `Optional[str]` fields that the code only ever tests for truthiness
  (`if location.address:`, `location.name or ''`, ...) are modelled as `String`
  with `""` standing for both `None` and the empty string — the two are
  indistinguishable under every operation the embedded code performs on them.
* Python floats (coordinates) are modelled as `ℚ`; the code only compares,
  averages and subtracts them.
* The network geocoder is an oracle `resp : String → String → GeoResponse`
  (query, region hint); the LLM-backed IATA resolver is an oracle
  `String → String` returning `""` for "unresolved"; the LLM-backed region
  hint resolver is abstracted as the `regionHint`/`destination` parameter
  (the mapper caches it per itinerary, so one job sees a single value).
* Mutation of `item.location` / `self._geocode_failures` is modelled by
  explicit state passing; the worker's database is a `List TripRow`.
* Fields that no embedded operation reads (dates, times, descriptions,
  confirmation numbers, the info-window HTML of markers) are carried only
  where the worker's format conversion moves them, and omitted from
  `ItineraryItem`, which keeps exactly the fields the mapper reads:
  `title`, `category`, `location`, `is_home_location`.
-/

namespace Libertas

/-- Python `needle in hay` on lists of characters: `prefixAt needle hay` is true
when `needle` is a prefix of `hay`. -/
def prefixAt : List Char → List Char → Bool
  | [], _ => true
  | _ :: _, [] => false
  | a :: as, b :: bs => a == b && prefixAt as bs

/-- Python `needle in hay`: `needle` occurs contiguously in `hay`. -/
def subOccurs (needle : List Char) : List Char → Bool
  | [] => needle.isEmpty
  | c :: rest => prefixAt needle (c :: rest) || subOccurs needle rest

/-- Python's substring test `needle in hay` for strings. -/
def strContains (hay needle : String) : Bool :=
  subOccurs needle.toList hay.toList

/-- Python `s.lower()` (the source only ever feeds it ASCII place names). -/
def lowerStr (s : String) : String :=
  ⟨s.toList.map Char.toLower⟩

/-- Python `s.strip()`: drop leading and trailing whitespace. -/
def trimStr (s : String) : String :=
  ⟨((s.toList.dropWhile Char.isWhitespace).reverse.dropWhile Char.isWhitespace).reverse⟩

/- ---------------------------------------------------------------------------
models.py
--------------------------------------------------------------------------- -/

/-- `Location` of models.py lines 8-29 (name, address, latitude, longitude,
location_type); optional strings are `""`-for-`None`, coordinates `Option ℚ`. -/
structure Location where
  name : String
  address : String
  latitude : Option ℚ
  longitude : Option ℚ
  location_type : String
deriving DecidableEq, Repr

/-- `Location.has_coordinates` (models.py lines 18-20): both coordinates set. -/
def Location.has_coordinates (l : Location) : Bool :=
  l.latitude.isSome && l.longitude.isSome

/-- `ItineraryItem` of models.py lines 32-47, restricted to the fields the
mapper and worker read: title, category, location, is_home_location. -/
structure ItineraryItem where
  title : String
  category : String
  location : Location
  is_home_location : Bool
deriving DecidableEq, Repr

/- ---------------------------------------------------------------------------
mapper.py — constants and the Geocode Client (`_do_geocode`)
--------------------------------------------------------------------------- -/

/-- mapper.py line 17. -/
def MAX_GEOCODE_LOCATIONS : ℕ := 50

/-- mapper.py line 20 (`NOMINATIM_DELAY = 1.1`, seconds, as a rational). -/
def NOMINATIM_DELAY : ℚ := 11 / 10

/-- One Nominatim candidate as `_do_geocode` reads it: `lat`, `lon`, the
`class` tag (field renamed `cls`; `class` is reserved) and `display_name`. -/
structure NominatimResult where
  lat : ℚ
  lon : ℚ
  cls : String
  display_name : String
deriving DecidableEq, Repr

/-- What one call of `_do_geocode` can observe from the network: a timeout
(`except requests.Timeout`, line 325), any other service/parse error
(`except Exception`, line 328), or a parsed JSON list of candidates. -/
inductive GeoResponse where
  | timeout
  | svcError
  | results (rs : List NominatimResult)
deriving DecidableEq, Repr

/-- The dict `_do_geocode` returns on success (lines 310-322). -/
structure GeoHit where
  lat : ℚ
  lng : ℚ
  address : String
deriving DecidableEq, Repr

/-- mapper.py line 304: `preferred_classes`. -/
def preferredClasses : List String :=
  ["place", "tourism", "building", "amenity", "leisure", "aeroway"]

/-- Build the returned dict from a candidate (lines 310-314 / 318-322). -/
def toHit (r : NominatimResult) : GeoHit :=
  ⟨r.lat, r.lon, r.display_name⟩

/-- Candidate selection of `_do_geocode` lines 302-324: first candidate with a
preferred class, else the first candidate, else no result when the list is
empty (`if data and len(data) > 0 ... else: return None`). -/
def chooseResult : List NominatimResult → Option GeoHit
  | [] => none
  | r0 :: rest =>
    match (r0 :: rest).find? (fun r => preferredClasses.contains r.cls) with
    | some r => some (toHit r)
    | none => some (toHit r0)

/-- Result of `_do_geocode` (lines 273-330) as a function of what the network
returned: both exception branches return `None`, an empty candidate list
returns `None`, a non-empty list goes through candidate selection. -/
def doGeocodeResult : GeoResponse → Option GeoHit
  | .timeout => none
  | .svcError => none
  | .results rs => chooseResult rs

/- ---------------------------------------------------------------------------
mapper.py — the throttle inside `_do_geocode` (lines 276-298)
--------------------------------------------------------------------------- -/

/-- The mapper's throttle state: `self._last_geocode_time`, an instance
attribute initialised in `__init__` (line 46). -/
structure ThrottleState where
  last : ℚ
deriving DecidableEq, Repr

/-- `__init__` line 46: `self._last_geocode_time = 0`. -/
def mapperInitThrottle : ThrottleState := ⟨0⟩

/-- Lines 277-279 and 298 over an idealised clock: at arrival time `now`,
if `now - last < NOMINATIM_DELAY` the code sleeps the remainder, so the
outbound call is issued at `last + NOMINATIM_DELAY`; otherwise at `now`.
The issue time is recorded as the new `_last_geocode_time`. -/
def throttleStep (st : ThrottleState) (now : ℚ) : ℚ × ThrottleState :=
  let callTime := if now - st.last < NOMINATIM_DELAY then st.last + NOMINATIM_DELAY else now
  (callTime, ⟨callTime⟩)

/-- Issue times of a sequence of lookup calls through one mapper instance,
given their arrival times. -/
def callTimes (st : ThrottleState) : List ℚ → List ℚ
  | [] => []
  | t :: ts =>
    let p := throttleStep st t
    p.1 :: callTimes p.2 ts

/- ---------------------------------------------------------------------------
mapper.py — Query Fallback Builder (the query construction of `_geocode_item`,
lines 200-258)
--------------------------------------------------------------------------- -/

/-- A word character of the regex `\b([A-Z]{3})\b` (Python `\w`): letters,
digits, underscore. -/
def wordChar (c : Char) : Bool := c.isAlphanum || c == '_'

/-- Is a token a 3-uppercase-letter candidate IATA code? -/
def isIataToken (t : List Char) : Bool :=
  t.length == 3 && t.all (fun c => c.isUpper)

/-- `re.findall(r'\b([A-Z]{3})\b', s)` (line 220): the maximal word-character
runs of `s` that consist of exactly three uppercase letters, in order. -/
def findIataCodes (s : String) : List String :=
  ((s.toList.splitOnP (fun c => !wordChar c)).filter isIataToken).map (⟨·⟩)

/-- Lines 221-225: resolve codes in order, append the first non-empty
resolution only (`break` after the first valid airport). -/
def resolveFirstIata (ρ : String → String) : List String → Option String
  | [] => none
  | c :: rest =>
    let a := ρ c
    if a ≠ "" then some a else resolveFirstIata ρ rest

/-- Line 231: first whitespace-separated token (`loc_name.split()[0]`),
used when the name starts with `(` so `re.match(r'^([^(]+)', ...)` fails. -/
def firstToken (s : String) : String :=
  match (s.toList.splitOnP (fun c => c.isWhitespace)).filter (· ≠ []) with
  | [] => s
  | t :: _ => ⟨t⟩

/-- Lines 229-231: city extracted from the location name — the part before the
first `(`, stripped; when the name starts with `(` (match fails), the first
whitespace-separated token. -/
def extractCity (locName : String) : String :=
  match locName.toList with
  | '(' :: _ => firstToken locName
  | _ => trimStr (String.mk (locName.toList.takeWhile (· ≠ '(')))

/-- The flight branch of the query builder (lines 212-240): the resolved IATA
airport name if any, then for a non-empty location name the explicit airport
queries and the name itself. -/
def flightQueries (ρ : String → String) (item : ItineraryItem) : List String :=
  let text := item.title ++ " " ++ item.location.name
  let iataPart :=
    match resolveFirstIata ρ (findIataCodes text) with
    | some a => [a]
    | none => []
  let namePart :=
    if item.location.name ≠ "" then
      let ln := item.location.name
      let city := extractCity ln
      [city ++ " International Airport", city ++ " Airport"]
        ++ (if strContains (lowerStr ln) "airport" then [] else [ln ++ " Airport"])
        ++ [ln]
    else []
  iataPart ++ namePart

/-- The non-flight `elif` chain (lines 243-252): title with location context
when the location name is not already inside the title (case-insensitive),
else the bare title; or title with region hint when there is no location. -/
def titleQueries (item : ItineraryItem) (regionHint : String) : List String :=
  if item.title ≠ "" ∧ item.location.name ≠ "" then
    if strContains (lowerStr item.title) (lowerStr item.location.name) then [item.title]
    else [item.title ++ ", " ++ item.location.name]
  else if item.title ≠ "" then
    (if regionHint ≠ "" then [item.title ++ ", " ++ regionHint] else []) ++ [item.title]
  else []

/-- The final location-name fallback (lines 255-258). -/
def locationQueries (item : ItineraryItem) (regionHint : String) : List String :=
  if item.location.name ≠ "" then
    (if regionHint ≠ "" ∧ ¬ strContains (lowerStr item.location.name) (lowerStr regionHint) then
      [item.location.name ++ ", " ++ regionHint]
    else [])
      ++ [item.location.name]
  else []

/-- The ordered query list `_geocode_item` builds (lines 206-258): the address
first if present, then the flight block or the title block, then the
location-name fallbacks. -/
def buildQueries (ρ : String → String) (item : ItineraryItem) (regionHint : String) :
    List String :=
  (if item.location.address ≠ "" then [item.location.address] else [])
    ++ (if item.category == "flight" then flightQueries ρ item
        else titleQueries item regionHint)
    ++ locationQueries item regionHint

/- ---------------------------------------------------------------------------
mapper.py — Item Geocoder (`_geocode_item` lines 260-271) and the job loop
(`geocode_locations` lines 48-70)
--------------------------------------------------------------------------- -/

/-- The query loop of lines 260-268: result of the first query whose lookup
succeeds, if any. -/
def firstHit (resp : String → String → GeoResponse) (regionHint : String) :
    List String → Option GeoHit
  | [] => none
  | q :: rest =>
    match doGeocodeResult (resp q regionHint) with
    | some h => some h
    | none => firstHit resp regionHint rest

/-- `_geocode_item` (lines 200-271) with the consecutive-failure counter
threaded: on the first successful query it writes latitude/longitude, writes
the address only when the item had none, and resets the counter to 0; on
exhausting all queries it leaves the item unchanged and increments the
counter. -/
def geocodeItem (resp : String → String → GeoResponse) (ρ : String → String)
    (regionHint : String) (item : ItineraryItem) (failures : ℕ) :
    ItineraryItem × ℕ :=
  match firstHit resp regionHint (buildQueries ρ item regionHint) with
  | some h =>
    ({ item with
        location :=
          { item.location with
              latitude := some h.lat
              longitude := some h.lng
              address := if item.location.address = "" then h.address else item.location.address } },
      0)
  | none => (item, failures + 1)

/-- Output of one `geocode_locations` run: the updated items, the final
consecutive-failure counter, and how many items `_geocode_item` was invoked
on (the instrumentation makes "was attempted" expressible). -/
structure GeocodeOut where
  items : List ItineraryItem
  failures : ℕ
  attempts : ℕ
deriving DecidableEq, Repr

/-- The loop of `geocode_locations` (lines 54-65).  The source first filters
the unresolved items, slices the first `MAX_GEOCODE_LOCATIONS` of them, and
iterates with `break` once `self._geocode_failures >= 3`.  Equivalently,
walking the full list in order: an item that already has coordinates is left
alone; an unresolved item is geocoded iff fewer than `MAX_GEOCODE_LOCATIONS`
unresolved items precede it (`idx` counts them) and the failure counter is
still below 3 (once it reaches 3 no later item is processed, which is what
`break` does). -/
def geocodeLocationsAux (resp : String → String → GeoResponse) (ρ : String → String)
    (regionHint : String) : List ItineraryItem → ℕ → ℕ → GeocodeOut
  | [], _, f => ⟨[], f, 0⟩
  | it :: rest, idx, f =>
    if it.location.has_coordinates then
      let o := geocodeLocationsAux resp ρ regionHint rest idx f
      ⟨it :: o.items, o.failures, o.attempts⟩
    else if idx < MAX_GEOCODE_LOCATIONS ∧ f < 3 then
      let p := geocodeItem resp ρ regionHint it f
      let o := geocodeLocationsAux resp ρ regionHint rest (idx + 1) p.2
      ⟨p.1 :: o.items, o.failures, o.attempts + 1⟩
    else
      let o := geocodeLocationsAux resp ρ regionHint rest (idx + 1) f
      ⟨it :: o.items, o.failures, o.attempts⟩

/-- `geocode_locations` (lines 48-70); `f0` is the mapper's
`_geocode_failures` on entry (0 for a fresh mapper). -/
def geocodeLocations (resp : String → String → GeoResponse) (ρ : String → String)
    (regionHint : String) (items : List ItineraryItem) (f0 : ℕ) : GeocodeOut :=
  geocodeLocationsAux resp ρ regionHint items 0 f0

/-- Number of unresolved (no-coordinates) items in a list — the items
`geocode_locations` selects into `items_to_geocode`. -/
def countUnresolved (items : List ItineraryItem) : ℕ :=
  (items.filter (fun it => !it.location.has_coordinates)).length

/- ---------------------------------------------------------------------------
mapper.py — `_is_origin_flight` (lines 355-400)
--------------------------------------------------------------------------- -/

/-- The `dest_terms` table of lines 376-381. -/
def destTerms : List (String × List String) :=
  [("vienna", ["vienna", "wien", "vie"]),
   ("austria", ["austria", "vienna", "wien", "vie"]),
   ("bratislava", ["bratislava", "bts"]),
   ("slovakia", ["slovakia", "bratislava"])]

/-- Line 389: `home_airports`. -/
def homeAirports : List String :=
  ["fco", "fiumicino", "jfk", "lax", "sfo", "ord", "lhr", "cdg", "ewr"]

/-- Line 395: `home_cities`. -/
def homeCities : List String :=
  ["rome", "new york", "los angeles", "san francisco", "chicago", "london", "paris"]

/-- `_is_origin_flight` (lines 355-400).  Non-flights and an empty destination
return `False` immediately; otherwise the checks run on the lowercased
location name (the lowercased title is also computed by the source, line 369,
but never used afterwards).  The source returns `False` at the first matching
dest-term pair and `True` at the first matching home entry; since every exit
of each loop nest yields the same constant, `any` is equivalent. -/
def isOriginFlight (item : ItineraryItem) (destination : String) : Bool :=
  if item.category ≠ "flight" then false
  else if destination = "" then false
  else
    let destLower := lowerStr destination
    let location := lowerStr item.location.name
    if strContains location destLower then false
    else if destTerms.any (fun p =>
        strContains destLower p.1 && p.2.any (fun t => strContains location t)) then false
    else if homeAirports.any (fun h => strContains location h) then true
    else if homeCities.any (fun c => strContains location c) then true
    else false

/- ---------------------------------------------------------------------------
mapper.py — Map Data Builder (`create_map_data`, lines 402-488)
--------------------------------------------------------------------------- -/

/-- `MARKER_COLORS` (lines 23-35). -/
def markerColors : List (String × String) :=
  [("hotel", "#4285F4"), ("lodging", "#4285F4"),
   ("restaurant", "#FF9800"), ("meal", "#FF9800"),
   ("attraction", "#34A853"), ("activity", "#34A853"),
   ("airport", "#EA4335"), ("flight", "#EA4335"),
   ("train_station", "#9C27B0"), ("transport", "#757575"),
   ("other", "#00BCD4")]

/-- One marker of the map payload (lines 476-482); the `info` HTML string of
`_build_info_window` is presentation-only and omitted. -/
structure Marker where
  lat : ℚ
  lng : ℚ
  title : String
  category : String
  color : String
deriving DecidableEq, Repr

/-- The map payload (lines 426-433 and 484-488).  The empty branch carries the
error string (and an empty route list, not modelled); the success branch has
no error key, modelled as `none`. -/
structure MapData where
  centerLat : ℚ
  centerLng : ℚ
  zoom : ℕ
  markers : List Marker
  error : Option String
deriving DecidableEq, Repr

/-- Python `max` of a non-empty list (applied only to non-empty lists here). -/
def pyMax (l : List ℚ) : ℚ :=
  match l with
  | [] => 0
  | x :: xs => xs.foldl max x

/-- Python `min` of a non-empty list. -/
def pyMin (l : List ℚ) : ℚ :=
  match l with
  | [] => 0
  | x :: xs => xs.foldl min x

/-- The zoom chain of lines 448-462. -/
def zoomOfSpan (s : ℚ) : ℕ :=
  if s > 10 then 5
  else if s > 5 then 6
  else if s > 2 then 7
  else if s > 1 then 8
  else if s > 1 / 2 then 9
  else if s > 1 / 10 then 10
  else 12

/-- Marker construction (lines 466-482): category defaults to `"other"`, the
color comes from `MARKER_COLORS` keyed first on `location_type`, then on the
category, then the cyan default.  (Coordinates are present for every filtered
item; `getD 0` is never reached.) -/
def mkMarker (item : ItineraryItem) : Marker :=
  let category := if item.category = "" then "other" else item.category
  let color := (markerColors.lookup item.location.location_type).getD
    ((markerColors.lookup category).getD "#00BCD4")
  ⟨item.location.latitude.getD 0, item.location.longitude.getD 0, item.title, category, color⟩

/-- The filter of lines 418-424: items with coordinates that are neither home
locations nor origin flights. -/
def mapFilter (items : List ItineraryItem) (destination : String) : List ItineraryItem :=
  items.filter (fun it =>
    it.location.has_coordinates && !it.is_home_location && !isOriginFlight it destination)

/-- Lines 426-488 after geocoding: the empty-filter sentinel, or centroid,
span-based zoom and markers. -/
def buildMapData (items : List ItineraryItem) (destination : String) : MapData :=
  if mapFilter items destination = [] then
    ⟨0, 0, 2, [], some "No locations could be geocoded"⟩
  else
    let pts := mapFilter items destination
    let lats := pts.map (fun it => it.location.latitude.getD 0)
    let lons := pts.map (fun it => it.location.longitude.getD 0)
    let centerLat := lats.sum / lats.length
    let centerLon := lons.sum / lons.length
    let latSpan := pyMax lats - pyMin lats
    let lonSpan := pyMax lons - pyMin lons
    let maxSpan := max latSpan lonSpan
    ⟨centerLat, centerLon, zoomOfSpan maxSpan, pts.map mkMarker, none⟩

/-- `create_map_data` (lines 402-488): geocode the itinerary (fresh mapper ⇒
failure counter 0), then build the payload; `_get_region_hint` is cached, so
the geocoding pass and the origin-flight filter see the same `hint`. -/
def createMapData (resp : String → String → GeoResponse) (ρ : String → String)
    (hint : String) (items : List ItineraryItem) : MapData :=
  buildMapData (geocodeLocations resp ρ hint items 0).items hint

/- ---------------------------------------------------------------------------
geocoding_worker.py — stored itinerary shapes and the format conversion
(`_convert_itinerary_data_to_worker_format`, lines 310-382)
--------------------------------------------------------------------------- -/

/-- One item of the day-grouped database shape (`day['items']` / `ideas`
entries); every field the conversion reads, `""` for missing. -/
structure DbItem where
  title : String
  time : String
  end_time : String
  location : String
  notes : String
  category : String
  website : String
deriving DecidableEq, Repr

/-- One entry of `itinerary_data['days']`. -/
structure DbDay where
  date : String
  day_number : Option ℕ
  items : List DbItem
deriving DecidableEq, Repr

/-- One item of the worker's flat format (the dicts built at lines 322-338 and
consumed by `deserialize_itinerary`, lines 176-198). -/
structure WorkerItem where
  title : String
  description : String
  category : String
  day_number : Option ℕ
  date : String
  start_time : String
  end_time : String
  location_name : String
  location_address : String
  location_lat : Option ℚ
  location_lon : Option ℚ
  confirmation_number : String
  notes : String
  is_home_location : Bool
  website_url : String
deriving DecidableEq, Repr

/-- The worker's job payload (lines 376-382). -/
structure WorkerFormat where
  title : String
  start_date : String
  end_date : String
  travelers : List String
  items : List WorkerItem
deriving DecidableEq, Repr

/-- The day-grouped `itinerary_data` JSON stored per trip.  `mapData` is the
`map_data` key `_store_map_data_in_db` writes (lines 86-104).  A stored empty
dict is falsy in Python exactly like `None`; both are `none` of the
surrounding `Option`. -/
structure DbItineraryData where
  title : String
  days : List DbDay
  ideas : List DbItem
  start_date : String
  end_date : String
  travelers : List String
  mapData : Option MapData
deriving DecidableEq, Repr

/-- An `itinerary_data` with no keys (`trip.get('itinerary_data') or {}`). -/
def emptyDbItineraryData : DbItineraryData :=
  ⟨"", [], [], "", "", [], none⟩

/-- Lines 321-338: one day-grouped item flattened into the worker shape. -/
def dayItemToWorker (dayDate : String) (dayNum : Option ℕ) (it : DbItem) : WorkerItem :=
  { title := it.title
    description := it.notes
    category := it.category
    day_number := dayNum
    date := dayDate
    start_time := it.time
    end_time := it.end_time
    location_name := it.location
    location_address := ""
    location_lat := none
    location_lon := none
    confirmation_number := ""
    notes := it.notes
    is_home_location := false
    website_url := it.website }

/-- Lines 341-358: an idea (undated item) flattened into the worker shape. -/
def ideaToWorker (it : DbItem) : WorkerItem :=
  dayItemToWorker "" none it

/-- Python `min` of a non-empty list of strings (ISO date strings compare
lexicographically). -/
def pyMinS (l : List String) : String :=
  match l with
  | [] => ""
  | x :: xs => xs.foldl min x

/-- Python `max` of a non-empty list of strings. -/
def pyMaxS (l : List String) : String :=
  match l with
  | [] => ""
  | x :: xs => xs.foldl max x

/-- `_convert_itinerary_data_to_worker_format` on non-null data (lines
315-382): flatten `days` then `ideas` into one item list, take the stored
title or the trip title or `"Untitled Trip"`, and fill missing start/end
dates from the day dates when possible. -/
def convertItineraryData (d : DbItineraryData) (tripTitle : String) : WorkerFormat :=
  let items :=
    (d.days.map (fun day => day.items.map (dayItemToWorker day.date day.day_number))).flatten
      ++ d.ideas.map ideaToWorker
  let title := if d.title ≠ "" then d.title
    else if tripTitle ≠ "" then tripTitle else "Untitled Trip"
  let dates :=
    if d.start_date = "" ∨ d.end_date = "" then
      match (d.days.map (·.date)).filter (· ≠ "") with
      | [] => (d.start_date, d.end_date)
      | x :: xs =>
        ((if d.start_date = "" then pyMinS (x :: xs) else d.start_date),
         (if d.end_date = "" then pyMaxS (x :: xs) else d.end_date))
    else (d.start_date, d.end_date)
  { title := title
    start_date := dates.1
    end_date := dates.2
    travelers := d.travelers
    items := items }

/-- `_convert_itinerary_data_to_worker_format` including the null guard of
line 312 (`if not itinerary_data: return None`). -/
def convertItineraryDataOpt (d : Option DbItineraryData) (tripTitle : String) :
    Option WorkerFormat :=
  d.map (convertItineraryData · tripTitle)

/-- `deserialize_itinerary` (lines 152-206) restricted to what the mapper
reads: each worker item becomes an `ItineraryItem` whose location carries the
serialized name/address/coordinates (and no `location_type`, which the
deserializer never sets). -/
def deserializeItinerary (wd : WorkerFormat) : List ItineraryItem :=
  wd.items.map (fun w =>
    { title := w.title
      category := w.category
      is_home_location := w.is_home_location
      location :=
        { name := w.location_name
          address := w.location_address
          latitude := w.location_lat
          longitude := w.location_lon
          location_type := "" } })

/- ---------------------------------------------------------------------------
database.py trips table (the functions the worker calls) and
geocoding_worker.py job handling
--------------------------------------------------------------------------- -/

/-- One row of the `trips` table, restricted to the columns the worker path
reads/writes. -/
structure TripRow where
  userId : ℕ
  link : String
  title : String
  mapStatus : String
  mapError : Option String
  itineraryData : Option DbItineraryData
deriving DecidableEq, Repr

/-- `database.get_trip_owner` (lines 540-549): user id of the first row with
the given link. -/
def getTripOwner (store : List TripRow) (link : String) : Option ℕ :=
  (store.find? (fun r => r.link == link)).map (·.userId)

/-- `database.get_trip_by_link` (lines 405-446): the first row matching user
and link. -/
def getTripByLink (store : List TripRow) (uid : ℕ) (link : String) : Option TripRow :=
  store.find? (fun r => r.userId == uid && r.link == link)

/-- `database.update_trip_map_status` (lines 447-461): set status and error on
the rows matching user and link. -/
def dbUpdateTripMapStatus (store : List TripRow) (uid : ℕ) (link status : String)
    (err : Option String) : List TripRow :=
  store.map (fun r =>
    if r.userId == uid && r.link == link then
      { r with mapStatus := status, mapError := err }
    else r)

/-- `database.update_trip_itinerary_data` (line 788): replace the stored
itinerary data on the rows matching user and link. -/
def dbUpdateTripItineraryData (store : List TripRow) (uid : ℕ) (link : String)
    (idata : DbItineraryData) : List TripRow :=
  store.map (fun r =>
    if r.userId == uid && r.link == link then
      { r with itineraryData := some idata }
    else r)

/-- `geocoding_worker.update_trip_map_status` (lines 23-31): look up the
owner; update when found, otherwise leave the store unchanged. -/
def updateTripMapStatusW (store : List TripRow) (link status : String)
    (err : Option String) : List TripRow :=
  match getTripOwner store link with
  | some uid => dbUpdateTripMapStatus store uid link status err
  | none => store

/-- `_store_map_data_in_db` (lines 86-104): find owner and trip, then write
`itinerary_data['map_data'] = map_data` (starting from `{}` when the trip had
no itinerary data). -/
def storeMapDataInDb (store : List TripRow) (link : String) (md : MapData) :
    List TripRow :=
  match getTripOwner store link with
  | none => store
  | some uid =>
    match getTripByLink store uid link with
    | none => store
    | some trip =>
      let idata := trip.itineraryData.getD emptyDbItineraryData
      dbUpdateTripItineraryData store uid link { idata with mapData := some md }

/-- `regenerate_map_for_trip` (lines 34-83) as a total function: set status
`processing`, deserialize, generate the map data, store it, set status
`ready`.  The embedded operations are total, so the `except` branch that
would set status `error` (lines 79-83) is never taken in the model; it is
taken in the source only when one of these steps raises. -/
def regenerateMapForTrip (resp : String → String → GeoResponse) (ρ : String → String)
    (hint : String) (store : List TripRow) (link : String) (wd : WorkerFormat) :
    List TripRow × MapData :=
  let st1 := updateTripMapStatusW store link "processing" none
  let md := createMapData resp ρ hint (deserializeItinerary wd)
  let st2 := storeMapDataInDb st1 link md
  let st3 := updateTripMapStatusW st2 link "ready" none
  (st3, md)

/-- `database.get_pending_geocoding_trips` (lines 463-498): rows whose
`map_status` is `pending` or `processing` and whose `itinerary_data` is
non-null (the sqlite branch also drops rows whose stored JSON parses falsy,
which the `Option` already encodes). -/
def getPendingGeocodingTrips (store : List TripRow) : List TripRow :=
  store.filter (fun r =>
    (r.mapStatus == "pending" || r.mapStatus == "processing") && r.itineraryData.isSome)

/-- `recover_stale_tasks` (lines 289-307): the jobs re-enqueued at startup —
each pending/processing trip with data, converted to the worker format (the
converted dict is always truthy, so `if worker_data:` only filters the null
case the `Option` carries). -/
def recoverStaleTasks (store : List TripRow) : List (String × WorkerFormat) :=
  (getPendingGeocodingTrips store).filterMap (fun r =>
    (convertItineraryDataOpt r.itineraryData r.title).map (fun wd => (r.link, wd)))

/-- The `map_status` of a given user's trip, as the polling side reads it. -/
def tripMapStatus (store : List TripRow) (uid : ℕ) (link : String) : Option String :=
  (getTripByLink store uid link).map (·.mapStatus)

/- ---------------------------------------------------------------------------
Sample data, shared by concrete instantiations below
--------------------------------------------------------------------------- -/

/-- An unresolved hotel item. -/
def sampleHotelItem : ItineraryItem :=
  { title := "Grand Hotel"
    category := "hotel"
    location := { name := "Vienna", address := "", latitude := none, longitude := none,
                  location_type := "" }
    is_home_location := false }

/-- A flight item carrying only a title — no location name, no address, and no
3-uppercase-letter token in the title. -/
def flightTitleOnlyItem : ItineraryItem :=
  { title := "Flight to destination"
    category := "flight"
    location := { name := "", address := "", latitude := none, longitude := none,
                  location_type := "" }
    is_home_location := false }

/-- A Nominatim candidate classified as a road. -/
def roadCandidate : NominatimResult := ⟨1, 2, "highway", "Some Road"⟩

/-- A Nominatim candidate classified as leisure. -/
def leisureCandidate : NominatimResult := ⟨3, 4, "leisure", "City Park"⟩

/-- The preferred-classification list as the claim (and §4.1 of the spec)
words it: place, tourism, building, amenity, aeroway — without `leisure`. -/
def claimedPreferredClasses : List String :=
  ["place", "tourism", "building", "amenity", "aeroway"]

/-- A network stub that always times out. -/
def alwaysTimeout : String → String → GeoResponse := fun _ _ => GeoResponse.timeout

/-- A network stub that always returns zero results. -/
def alwaysNoResults : String → String → GeoResponse := fun _ _ => GeoResponse.results []

/-- An IATA resolver stub that resolves nothing. -/
def noIataResolver : String → String := fun _ => ""

/- ---------------------------------------------------------------------------
Helper lemmas
--------------------------------------------------------------------------- -/

/-- When every lookup answers "no result", no query in a list hits. -/
theorem firstHit_none (resp : String → String → GeoResponse) (hint : String)
    (hfail : ∀ q, doGeocodeResult (resp q hint) = none) :
    ∀ qs, firstHit resp hint qs = none := by
  intro qs
  induction qs with
  | nil => rfl
  | cons q rest ih => simp [firstHit, hfail q, ih]

/-- When every lookup answers "no result", `_geocode_item` leaves the item
unchanged and increments the consecutive-failure counter. -/
theorem geocodeItem_fail (resp : String → String → GeoResponse) (ρ : String → String)
    (hint : String) (item : ItineraryItem) (f : ℕ)
    (hfail : ∀ q, doGeocodeResult (resp q hint) = none) :
    geocodeItem resp ρ hint item f = (item, f + 1) := by
  simp [geocodeItem, firstHit_none resp hint hfail]

/- ---------------------------------------------------------------------------
C2 — failure-mode reporting of the Geocode Client
--------------------------------------------------------------------------- -/

/-- C2 counterexample.  The claim says timeout, service error and zero results
are reported distinctly to the caller and that only the first two increment
the failure counter.  In the code all three collapse to the same `None`
return of `_do_geocode`, and `_geocode_item` increments `_geocode_failures`
on query exhaustion regardless of which mode produced the misses: with the
query answered by zero results the counter moves 0 → 1 exactly as with a
timeout. -/
theorem c2_counterexample :
    doGeocodeResult GeoResponse.timeout = doGeocodeResult (GeoResponse.results []) ∧
    doGeocodeResult GeoResponse.svcError = doGeocodeResult (GeoResponse.results []) ∧
    geocodeItem alwaysNoResults noIataResolver "" sampleHotelItem 0 = (sampleHotelItem, 1) ∧
    geocodeItem alwaysTimeout noIataResolver "" sampleHotelItem 0 = (sampleHotelItem, 1) := by
  refine ⟨rfl, rfl, ?_, ?_⟩
  · exact geocodeItem_fail _ _ _ _ _ (fun _ => rfl)
  · exact geocodeItem_fail _ _ _ _ _ (fun _ => rfl)

/-- C2 (amended): every failure mode of a lookup — timeout, service error, or
zero results — is reported to the caller as the same "no result" (`None`),
and whenever all of an item's queries yield no result, regardless of mode,
`_geocode_item` increments the consecutive-failure counter by one and leaves
the item unchanged; zero results increments it exactly as a timeout does. -/
theorem c2_amended :
    (∀ r : GeoResponse,
      r = GeoResponse.timeout ∨ r = GeoResponse.svcError ∨ r = GeoResponse.results [] →
        doGeocodeResult r = none) ∧
    (∀ (resp : String → String → GeoResponse) (ρ : String → String) (hint : String)
        (item : ItineraryItem) (f : ℕ),
      (∀ q, doGeocodeResult (resp q hint) = none) →
        geocodeItem resp ρ hint item f = (item, f + 1)) := by
  constructor
  · rintro r (rfl | rfl | rfl) <;> rfl
  · intro resp ρ hint item f hfail
    exact geocodeItem_fail resp ρ hint item f hfail

/-- Witness for `c2_amended` at a concrete always-timeout responder. -/
theorem c2_witness :
    GeoResponse.timeout = GeoResponse.timeout ∧
    (∀ q, doGeocodeResult (alwaysTimeout q "") = none) ∧
    geocodeItem alwaysTimeout noIataResolver "" sampleHotelItem 0 = (sampleHotelItem, 1) :=
  ⟨rfl, fun _ => rfl,
    c2_amended.2 alwaysTimeout noIataResolver "" sampleHotelItem 0 (fun _ => rfl)⟩

/- ---------------------------------------------------------------------------
C3 — the query list is non-empty
--------------------------------------------------------------------------- -/

/-- C3 counterexample.  A flight item with a non-empty title but no location
name and no address, whose title contains no 3-uppercase-letter token,
produces an empty query list — the claim asserts the list is never empty
when the title is non-empty, including for such flight items. -/
theorem c3_counterexample :
    flightTitleOnlyItem.title ≠ "" ∧
    flightTitleOnlyItem.location.name = "" ∧
    flightTitleOnlyItem.location.address = "" ∧
    buildQueries noIataResolver flightTitleOnlyItem "Austria" = [] := by
  refine ⟨by decide, rfl, rfl, by decide⟩

/-- C3 (amended): the query list is never empty when the item's location name
is non-empty, or when its title is non-empty and the item is not a flight.
A flight item with only a title (no location name, no address, no resolvable
IATA code in the title) can produce an empty list. -/
theorem c3_amended (ρ : String → String) (item : ItineraryItem) (hint : String)
    (h : item.location.name ≠ "" ∨ (item.title ≠ "" ∧ item.category ≠ "flight")) :
    buildQueries ρ item hint ≠ [] := by
  intro hempty
  rw [buildQueries] at hempty
  simp only [List.append_eq_nil] at hempty
  obtain ⟨⟨-, hB⟩, hC⟩ := hempty
  rcases h with hname | ⟨htitle, hcat⟩
  · rw [locationQueries, if_pos hname] at hC
    simp at hC
  · by_cases hname : item.location.name = ""
    · have hcatb : (item.category == "flight") = false := by
        simpa using hcat
      rw [hcatb] at hB
      simp only [Bool.false_eq_true, if_false] at hB
      rw [titleQueries] at hB
      rw [if_neg (by simp [hname]), if_pos htitle] at hB
      simp at hB
    · rw [locationQueries, if_pos hname] at hC
      simp at hC

/-- Witness for `c3_amended` at a concrete hotel item. -/
theorem c3_witness :
    sampleHotelItem.location.name ≠ "" ∧
    buildQueries noIataResolver sampleHotelItem "" ≠ [] :=
  ⟨by decide, c3_amended noIataResolver sampleHotelItem "" (Or.inl (by decide))⟩

/- ---------------------------------------------------------------------------
C4 — the geocode throttle
--------------------------------------------------------------------------- -/

/-- C4 counterexample.  `_last_geocode_time` is an instance attribute set in
`ItineraryMapper.__init__`, not process-wide state: two mapper instances,
each in its `__init__` state, issue calls at times 1000 and 1000.1 — neither
sleeps, and the interval between the two consecutive process-wide outbound
calls is 0.1 s < 1.1 s, refuting the shared-clock claim. -/
theorem c4_counterexample :
    (throttleStep mapperInitThrottle 1000).1 = 1000 ∧
    (throttleStep mapperInitThrottle (1000 + 1 / 10)).1 = 1000 + 1 / 10 ∧
    ¬ ((1000 : ℚ) + NOMINATIM_DELAY ≤ 1000 + 1 / 10) := by
  refine ⟨?_, ?_, ?_⟩ <;> norm_num [throttleStep, mapperInitThrottle, NOMINATIM_DELAY]

/-- Auxiliary for C4: issue times through one mapper instance are spaced by at
least the minimum interval, and the first one is at least the recorded last
time plus the interval. -/
theorem callTimes_spaced (ts : List ℚ) : ∀ st : ThrottleState,
    List.Chain' (fun a b => a + NOMINATIM_DELAY ≤ b) (callTimes st ts) ∧
    ∀ y ∈ (callTimes st ts).head?, st.last + NOMINATIM_DELAY ≤ y := by
  induction ts with
  | nil => intro st; exact ⟨List.chain'_nil, by simp [callTimes]⟩
  | cons t rest ih =>
    intro st
    have hstep : st.last + NOMINATIM_DELAY ≤ (throttleStep st t).1 := by
      rw [throttleStep]
      split
      · exact le_refl _
      · linarith [not_lt.mp (by assumption : ¬ t - st.last < NOMINATIM_DELAY)]
    have hlast : (throttleStep st t).2.last = (throttleStep st t).1 := rfl
    obtain ⟨hchain, hhead⟩ := ih (throttleStep st t).2
    refine ⟨?_, ?_⟩
    · rw [callTimes]
      exact List.chain'_cons'.mpr ⟨fun y hy => by
        have := hhead y hy
        rw [hlast] at this
        exact this, hchain⟩
    · intro y hy
      simp only [callTimes, List.head?_cons, Option.mem_def, Option.some.injEq] at hy
      subst hy
      exact hstep

/-- C4 (amended): the throttle clock is per `ItineraryMapper` instance, not
process-wide; within any one instance, for any sequence of lookup arrival
times, every two consecutive outbound calls are issued at least
`NOMINATIM_DELAY` (1.1 s) apart, the later one delayed by sleeping the
remainder. -/
theorem c4_amended (st : ThrottleState) (ts : List ℚ) :
    List.Chain' (fun a b => a + NOMINATIM_DELAY ≤ b) (callTimes st ts) :=
  (callTimes_spaced ts st).1

/- ---------------------------------------------------------------------------
C7 — candidate preference of the Geocode Client
--------------------------------------------------------------------------- -/

/-- C7 counterexample.  With candidates `[road, leisure]`, no candidate has a
classification in the claim's preferred list (place, tourism, building,
amenity, aeroway), so the claim requires the first candidate; the code
prefers `leisure` — which its own list contains — and returns the second
candidate instead. -/
theorem c7_counterexample :
    (∀ r ∈ [roadCandidate, leisureCandidate],
        claimedPreferredClasses.contains r.cls = false) ∧
    chooseResult [roadCandidate, leisureCandidate] = some (toHit leisureCandidate) ∧
    toHit leisureCandidate ≠ toHit roadCandidate := by
  refine ⟨by decide, by decide, by decide⟩

/-- C7 (amended): the code's preferred classifications are place, tourism,
building, amenity, leisure and aeroway (`leisure` included).  On a non-empty
candidate list the client returns the first candidate with a preferred
classification when one exists, and the first candidate overall when no
candidate has a preferred classification. -/
theorem c7_amended (r0 : NominatimResult) (rest : List NominatimResult) :
    "leisure" ∈ preferredClasses ∧
    (∀ r, (r0 :: rest).find? (fun r => preferredClasses.contains r.cls) = some r →
        chooseResult (r0 :: rest) = some (toHit r)) ∧
    ((∀ r ∈ r0 :: rest, preferredClasses.contains r.cls = false) →
        chooseResult (r0 :: rest) = some (toHit r0)) := by
  refine ⟨by decide, ?_, ?_⟩
  · intro r hfind
    rw [chooseResult, hfind]
  · intro hnone
    have hfind : (r0 :: rest).find? (fun r => preferredClasses.contains r.cls) = none := by
      apply List.find?_eq_none.mpr
      intro x hx
      simpa using hnone x hx
    rw [chooseResult, hfind]

/-- Witness for `c7_amended` at the concrete road/leisure candidate pair. -/
theorem c7_witness :
    ([roadCandidate, leisureCandidate].find? (fun r => preferredClasses.contains r.cls) =
      some leisureCandidate) ∧
    chooseResult [roadCandidate, leisureCandidate] = some (toHit leisureCandidate) :=
  ⟨by decide, (c7_amended roadCandidate [leisureCandidate]).2.1 leisureCandidate (by decide)⟩

/- ---------------------------------------------------------------------------
C10 — `_is_origin_flight` guards
--------------------------------------------------------------------------- -/

/-- C10: `_is_origin_flight` returns `False` whenever the item is not a flight
or the destination string is empty; consequently, with an empty region hint
the map filter excludes exactly the unresolved and home items — no resolved
flight is excluded as an origin flight. -/
theorem c10_origin_flight_guards (item : ItineraryItem) (dest : String)
    (items : List ItineraryItem) :
    (item.category ≠ "flight" → isOriginFlight item dest = false) ∧
    isOriginFlight item "" = false ∧
    mapFilter items "" =
      items.filter (fun it => it.location.has_coordinates && !it.is_home_location) := by
  have hempty : ∀ it : ItineraryItem, isOriginFlight it "" = false := by
    intro it
    rw [isOriginFlight]
    split
    · rfl
    · rw [if_pos rfl]
  refine ⟨?_, hempty item, ?_⟩
  · intro h
    rw [isOriginFlight, if_pos h]
  · rw [mapFilter]
    apply List.filter_congr
    intro x _
    rw [hempty x]
    simp

/-- Witness for `c10_origin_flight_guards` at a concrete hotel item. -/
theorem c10_witness :
    sampleHotelItem.category ≠ "flight" ∧
    isOriginFlight sampleHotelItem "Austria" = false :=
  ⟨by decide, (c10_origin_flight_guards sampleHotelItem "Austria" []).1 (by decide)⟩

/- ---------------------------------------------------------------------------
C6 — centroid and zoom of the Map Data Builder
--------------------------------------------------------------------------- -/

/-- The arithmetic mean, as the claim words the centroid. -/
def arithMean (l : List ℚ) : ℚ := l.sum / l.length

/-- C6: on a non-empty filtered point set the center is the arithmetic
centroid (mean latitude, mean longitude) and the zoom comes from the
bounding-box span through the fixed threshold chain `zoomOfSpan`; spans
above 10° give zoom 5, spans below 0.1° give zoom 12, smaller spans never
give smaller zoom, and in particular a 12° span gives zoom 5 and a 0.05°
span gives zoom 12. -/
theorem c6_center_zoom :
    (∀ (items : List ItineraryItem) (dest : String),
      mapFilter items dest ≠ [] →
        (buildMapData items dest).centerLat =
          arithMean ((mapFilter items dest).map (fun it => it.location.latitude.getD 0)) ∧
        (buildMapData items dest).centerLng =
          arithMean ((mapFilter items dest).map (fun it => it.location.longitude.getD 0)) ∧
        (buildMapData items dest).zoom =
          zoomOfSpan (max
            (pyMax ((mapFilter items dest).map (fun it => it.location.latitude.getD 0)) -
              pyMin ((mapFilter items dest).map (fun it => it.location.latitude.getD 0)))
            (pyMax ((mapFilter items dest).map (fun it => it.location.longitude.getD 0)) -
              pyMin ((mapFilter items dest).map (fun it => it.location.longitude.getD 0))))) ∧
    (∀ s : ℚ, 10 < s → zoomOfSpan s = 5) ∧
    (∀ s : ℚ, s < 1 / 10 → zoomOfSpan s = 12) ∧
    (∀ s t : ℚ, s ≤ t → zoomOfSpan t ≤ zoomOfSpan s) ∧
    zoomOfSpan 12 = 5 ∧ zoomOfSpan (1 / 20) = 12 := by
  refine ⟨?_, ?_, ?_, ?_, ?_, ?_⟩
  · intro items dest hne
    unfold buildMapData
    rw [if_neg hne]
    exact ⟨rfl, rfl, rfl⟩
  · intro s hs
    rw [zoomOfSpan, if_pos hs]
  · intro s hs
    rw [zoomOfSpan]
    repeat rw [if_neg (by linarith)]
  · intro s t hst
    rw [zoomOfSpan, zoomOfSpan]
    split_ifs <;> first | rfl | omega | linarith
  · norm_num [zoomOfSpan]
  · norm_num [zoomOfSpan]

/-- Three resolved attraction items spanning 12° of latitude. -/
def spanItems : List ItineraryItem :=
  [{ title := "P1", category := "attraction"
     location := { name := "A", address := "", latitude := some 0, longitude := some 0,
                   location_type := "" }
     is_home_location := false },
   { title := "P2", category := "attraction"
     location := { name := "B", address := "", latitude := some 6, longitude := some 0,
                   location_type := "" }
     is_home_location := false },
   { title := "P3", category := "attraction"
     location := { name := "C", address := "", latitude := some 12, longitude := some 0,
                   location_type := "" }
     is_home_location := false }]

/-- Witness for `c6_center_zoom` at the three 12°-span points and at the two
named spans. -/
theorem c6_witness :
    mapFilter spanItems "" ≠ [] ∧
    (buildMapData spanItems "").centerLat =
      arithMean ((mapFilter spanItems "").map (fun it => it.location.latitude.getD 0)) ∧
    (10 : ℚ) < 12 ∧ zoomOfSpan 12 = 5 ∧
    (1 / 20 : ℚ) < 1 / 10 ∧ zoomOfSpan (1 / 20) = 12 ∧
    (1 : ℚ) ≤ 2 ∧ zoomOfSpan 2 ≤ zoomOfSpan 1 :=
  ⟨by decide, (c6_center_zoom.1 spanItems "" (by decide)).1,
    by norm_num, c6_center_zoom.2.1 12 (by norm_num),
    by norm_num, c6_center_zoom.2.2.1 (1 / 20) (by norm_num),
    by norm_num, c6_center_zoom.2.2.2.1 1 2 (by norm_num)⟩

/- ---------------------------------------------------------------------------
C8 — the MAX_GEOCODE_LOCATIONS cap
--------------------------------------------------------------------------- -/

/-- Once the count of unresolved items already passed reaches the cap, the
rest of the walk touches nothing and attempts nothing. -/
theorem aux_idx_ge (resp : String → String → GeoResponse) (ρ : String → String)
    (hint : String) :
    ∀ (items : List ItineraryItem) (idx f : ℕ), MAX_GEOCODE_LOCATIONS ≤ idx →
      geocodeLocationsAux resp ρ hint items idx f = ⟨items, f, 0⟩ := by
  intro items
  induction items with
  | nil => intro idx f _; rfl
  | cons it rest ih =>
    intro idx f h
    rw [geocodeLocationsAux]
    by_cases hc : it.location.has_coordinates = true
    · rw [if_pos hc]
      simp [ih idx f h]
    · rw [if_neg hc,
        if_neg (fun hcond => absurd hcond.1 (Nat.not_lt.mpr h))]
      simp [ih (idx + 1) f (Nat.le_succ_of_le h)]

/-- Once the failure counter has reached 3, the rest of the walk touches
nothing and attempts nothing (this is the `break`). -/
theorem aux_f_ge3 (resp : String → String → GeoResponse) (ρ : String → String)
    (hint : String) :
    ∀ (items : List ItineraryItem) (idx f : ℕ), 3 ≤ f →
      geocodeLocationsAux resp ρ hint items idx f = ⟨items, f, 0⟩ := by
  intro items
  induction items with
  | nil => intro idx f _; rfl
  | cons it rest ih =>
    intro idx f h
    rw [geocodeLocationsAux]
    by_cases hc : it.location.has_coordinates = true
    · rw [if_pos hc]
      simp [ih idx f h]
    · rw [if_neg hc,
        if_neg (fun hcond => absurd hcond.2 (Nat.not_lt.mpr h))]
      simp [ih (idx + 1) f h]

/-- The number of geocoding attempts is bounded by the room left under the
cap. -/
theorem aux_attempts_le (resp : String → String → GeoResponse) (ρ : String → String)
    (hint : String) :
    ∀ (items : List ItineraryItem) (idx f : ℕ),
      (geocodeLocationsAux resp ρ hint items idx f).attempts ≤
        MAX_GEOCODE_LOCATIONS - idx := by
  intro items
  induction items with
  | nil => intro idx f; exact Nat.zero_le _
  | cons it rest ih =>
    intro idx f
    rw [geocodeLocationsAux]
    by_cases hc : it.location.has_coordinates = true
    · rw [if_pos hc]
      exact ih idx f
    · rw [if_neg hc]
      by_cases hcond : idx < MAX_GEOCODE_LOCATIONS ∧ f < 3
      · rw [if_pos hcond]
        have h1 := ih (idx + 1) (geocodeItem resp ρ hint it f).2
        have h2 : idx < MAX_GEOCODE_LOCATIONS := hcond.1
        simp only [MAX_GEOCODE_LOCATIONS] at *
        omega
      · rw [if_neg hcond]
        have h1 := ih (idx + 1) f
        simp only [MAX_GEOCODE_LOCATIONS] at *
        omega

/-- Unresolved-item count of a cons. -/
theorem countUnresolved_cons (it : ItineraryItem) (l : List ItineraryItem) :
    countUnresolved (it :: l) =
      (if it.location.has_coordinates then 0 else 1) + countUnresolved l := by
  by_cases hc : it.location.has_coordinates = true
  · simp [countUnresolved, hc]
  · simp [countUnresolved, hc]
    omega

/-- Positions preceded by at least `MAX_GEOCODE_LOCATIONS` unresolved items
(counting the room already used up by `idx`) are returned unchanged. -/
theorem aux_drop (resp : String → String → GeoResponse) (ρ : String → String)
    (hint : String) :
    ∀ (items : List ItineraryItem) (i idx f : ℕ),
      MAX_GEOCODE_LOCATIONS ≤ idx + countUnresolved (items.take i) →
      (geocodeLocationsAux resp ρ hint items idx f).items.drop i = items.drop i := by
  intro items
  induction items with
  | nil => intro i idx f _; simp [geocodeLocationsAux]
  | cons it rest ih =>
    intro i idx f h
    match i with
    | 0 =>
      simp only [List.take_zero, countUnresolved, List.filter_nil, List.length_nil,
        Nat.add_zero] at h
      rw [aux_idx_ge resp ρ hint (it :: rest) idx f h]
    | Nat.succ j =>
      rw [List.take_succ_cons, countUnresolved_cons] at h
      rw [geocodeLocationsAux]
      by_cases hc : it.location.has_coordinates = true
      · rw [if_pos hc]
        simp only [hc, if_true] at h
        simp only [List.drop_succ_cons]
        exact ih j idx f (by omega)
      · rw [if_neg hc]
        rw [if_neg hc] at h
        by_cases hcond : idx < MAX_GEOCODE_LOCATIONS ∧ f < 3
        · rw [if_pos hcond]
          simp only [List.drop_succ_cons]
          exact ih j (idx + 1) (geocodeItem resp ρ hint it f).2 (by omega)
        · rw [if_neg hcond]
          simp only [List.drop_succ_cons]
          exact ih j (idx + 1) f (by omega)

/-- C8: one run of `geocode_locations` invokes the item geocoder at most
`MAX_GEOCODE_LOCATIONS` (50) times, and every position preceded by at least
50 unresolved items in itinerary order is returned exactly as it came in —
unattempted and, in particular, still unresolved. -/
theorem c8_geocode_cap (resp : String → String → GeoResponse) (ρ : String → String)
    (hint : String) (items : List ItineraryItem) (f0 : ℕ) :
    (geocodeLocations resp ρ hint items f0).attempts ≤ MAX_GEOCODE_LOCATIONS ∧
    ∀ i : ℕ, MAX_GEOCODE_LOCATIONS ≤ countUnresolved (items.take i) →
      (geocodeLocations resp ρ hint items f0).items.drop i = items.drop i := by
  constructor
  · have := aux_attempts_le resp ρ hint items 0 f0
    simpa [geocodeLocations] using this
  · intro i hi
    exact aux_drop resp ρ hint items i 0 f0 (by simpa using hi)

/-- Fifty-one unresolved items. -/
def manyItems : List ItineraryItem := List.replicate 51 sampleHotelItem

/-- Witness for `c8_geocode_cap` on a 51-item itinerary: item 51 (and beyond)
is returned unchanged. -/
theorem c8_witness :
    MAX_GEOCODE_LOCATIONS ≤ countUnresolved (manyItems.take 50) ∧
    (geocodeLocations alwaysNoResults noIataResolver "" manyItems 0).attempts ≤
      MAX_GEOCODE_LOCATIONS ∧
    (geocodeLocations alwaysNoResults noIataResolver "" manyItems 0).items.drop 50 =
      manyItems.drop 50 :=
  ⟨by decide,
    (c8_geocode_cap alwaysNoResults noIataResolver "" manyItems 0).1,
    (c8_geocode_cap alwaysNoResults noIataResolver "" manyItems 0).2 50 (by decide)⟩

/- ---------------------------------------------------------------------------
C9 — frame conditions of geocoding
--------------------------------------------------------------------------- -/

/-- Items that already carry coordinates pass through the walk untouched. -/
theorem aux_keeps_resolved (resp : String → String → GeoResponse) (ρ : String → String)
    (hint : String) :
    ∀ (items : List ItineraryItem) (idx f i : ℕ) (it : ItineraryItem),
      items[i]? = some it → it.location.has_coordinates = true →
      (geocodeLocationsAux resp ρ hint items idx f).items[i]? = some it := by
  intro items
  induction items with
  | nil => intro idx f i it hget _; simp at hget
  | cons a rest ih =>
    intro idx f i it hget hco
    match i with
    | 0 =>
      simp only [List.getElem?_cons_zero, Option.some.injEq] at hget
      subst hget
      rw [geocodeLocationsAux, if_pos hco]
      simp
    | Nat.succ j =>
      simp only [List.getElem?_cons_succ] at hget
      rw [geocodeLocationsAux]
      by_cases hc : a.location.has_coordinates = true
      · rw [if_pos hc]
        simpa using ih (idx) f j it hget hco
      · rw [if_neg hc]
        by_cases hcond : idx < MAX_GEOCODE_LOCATIONS ∧ f < 3
        · rw [if_pos hcond]
          simpa using ih (idx + 1) (geocodeItem resp ρ hint a f).2 j it hget hco
        · rw [if_neg hcond]
          simpa using ih (idx + 1) f j it hget hco

/-- C9: an item whose location already has both coordinates is skipped by
`geocode_locations` and returned unchanged; and `_geocode_item` never
touches title, category, home flag or location name, only writes
latitude/longitude on a successful lookup (leaving the item identical when
every query misses), and writes the address only when the item had none. -/
theorem c9_frame (resp : String → String → GeoResponse) (ρ : String → String)
    (hint : String) :
    (∀ (items : List ItineraryItem) (f0 i : ℕ) (it : ItineraryItem),
      items[i]? = some it → it.location.has_coordinates = true →
        (geocodeLocations resp ρ hint items f0).items[i]? = some it) ∧
    (∀ (item : ItineraryItem) (f : ℕ),
      (geocodeItem resp ρ hint item f).1.title = item.title ∧
      (geocodeItem resp ρ hint item f).1.category = item.category ∧
      (geocodeItem resp ρ hint item f).1.is_home_location = item.is_home_location ∧
      (geocodeItem resp ρ hint item f).1.location.name = item.location.name ∧
      (item.location.address ≠ "" →
        (geocodeItem resp ρ hint item f).1.location.address = item.location.address) ∧
      (firstHit resp hint (buildQueries ρ item hint) = none →
        geocodeItem resp ρ hint item f = (item, f + 1)) ∧
      (∀ h, firstHit resp hint (buildQueries ρ item hint) = some h →
        (geocodeItem resp ρ hint item f).1.location.latitude = some h.lat ∧
        (geocodeItem resp ρ hint item f).1.location.longitude = some h.lng ∧
        (item.location.address = "" →
          (geocodeItem resp ρ hint item f).1.location.address = h.address))) := by
  constructor
  · intro items f0 i it hget hco
    exact aux_keeps_resolved resp ρ hint items 0 f0 i it hget hco
  · intro item f
    rcases hh : firstHit resp hint (buildQueries ρ item hint) with - | h
    · simp [geocodeItem, hh]
    · refine ⟨?_, ?_, ?_, ?_, ?_, ?_, ?_⟩
      · simp [geocodeItem, hh]
      · simp [geocodeItem, hh]
      · simp [geocodeItem, hh]
      · simp [geocodeItem, hh]
      · intro hne
        simp [geocodeItem, hh, if_neg hne]
      · intro hnone
        exact Option.noConfusion hnone
      · intro h2 hsome
        obtain rfl : h = h2 := Option.some.inj hsome
        refine ⟨by simp [geocodeItem, hh], by simp [geocodeItem, hh], ?_⟩
        intro heq
        simp [geocodeItem, hh, if_pos heq]

/-- A resolved attraction item. -/
def resolvedItem : ItineraryItem :=
  { title := "Opera House"
    category := "attraction"
    location := { name := "Vienna", address := "Opernring 2", latitude := some 48,
                  longitude := some 16, location_type := "" }
    is_home_location := false }

/-- Witness for `c9_frame`: a resolved item passes through untouched, and an
all-miss run leaves an unresolved item identical. -/
theorem c9_witness :
    ([resolvedItem][0]? = some resolvedItem) ∧
    resolvedItem.location.has_coordinates = true ∧
    (geocodeLocations alwaysNoResults noIataResolver "" [resolvedItem] 0).items[0]? =
      some resolvedItem ∧
    (firstHit alwaysNoResults "" (buildQueries noIataResolver sampleHotelItem "") = none) ∧
    geocodeItem alwaysNoResults noIataResolver "" sampleHotelItem 7 = (sampleHotelItem, 8) :=
  ⟨rfl, by decide,
    (c9_frame alwaysNoResults noIataResolver "").1 [resolvedItem] 0 0 resolvedItem rfl (by decide),
    by decide,
    ((c9_frame alwaysNoResults noIataResolver "").2 sampleHotelItem 7).2.2.2.2.2.1 (by decide)⟩

/- ---------------------------------------------------------------------------
Store lemmas shared by C1 and C5
--------------------------------------------------------------------------- -/

/-- `find?` over a field-preserving row map. -/
theorem getTripOwner_map (store : List TripRow) (f : TripRow → TripRow) (link : String)
    (hl : ∀ r, (f r).link = r.link) (hu : ∀ r, (f r).userId = r.userId) :
    getTripOwner (store.map f) link = getTripOwner store link := by
  induction store with
  | nil => rfl
  | cons a rest ih =>
    rw [List.map_cons, getTripOwner, getTripOwner, List.find?, List.find?, hl a]
    rcases hb : (a.link == link) with - | -
    · exact ih
    · simp [hu a]

/-- `get_trip_by_link` over a field-preserving row map. -/
theorem getTripByLink_map (store : List TripRow) (f : TripRow → TripRow) (uid : ℕ)
    (link : String) (hl : ∀ r, (f r).link = r.link) (hu : ∀ r, (f r).userId = r.userId) :
    getTripByLink (store.map f) uid link = (getTripByLink store uid link).map f := by
  induction store with
  | nil => rfl
  | cons a rest ih =>
    rw [List.map_cons, getTripByLink, getTripByLink, List.find?, List.find?, hl a, hu a]
    rcases hb : (a.userId == uid && a.link == link) with - | -
    · exact ih
    · rfl

/-- The status update map preserves link and user id. -/
theorem statusMap_preserves (uid : ℕ) (link status : String) (err : Option String) :
    (∀ r : TripRow, ((if r.userId == uid && r.link == link then
        { r with mapStatus := status, mapError := err } else r) : TripRow).link = r.link) ∧
    (∀ r : TripRow, ((if r.userId == uid && r.link == link then
        { r with mapStatus := status, mapError := err } else r) : TripRow).userId = r.userId) := by
  constructor <;> intro r <;> split <;> rfl

/-- The itinerary-data update map preserves link and user id. -/
theorem idataMap_preserves (uid : ℕ) (link : String) (idata : DbItineraryData) :
    (∀ r : TripRow, ((if r.userId == uid && r.link == link then
        { r with itineraryData := some idata } else r) : TripRow).link = r.link) ∧
    (∀ r : TripRow, ((if r.userId == uid && r.link == link then
        { r with itineraryData := some idata } else r) : TripRow).userId = r.userId) := by
  constructor <;> intro r <;> split <;> rfl

/-- The worker's status update preserves trip ownership. -/
theorem getTripOwner_updateW (store : List TripRow) (link status : String)
    (err : Option String) (link' : String) :
    getTripOwner (updateTripMapStatusW store link status err) link' =
      getTripOwner store link' := by
  rw [updateTripMapStatusW]
  rcases h : getTripOwner store link with - | uid
  · rfl
  · exact getTripOwner_map store _ link' (statusMap_preserves uid link status err).1
      (statusMap_preserves uid link status err).2

/-- Storing map data preserves trip ownership. -/
theorem getTripOwner_storeMapData (store : List TripRow) (link : String) (md : MapData)
    (link' : String) :
    getTripOwner (storeMapDataInDb store link md) link' = getTripOwner store link' := by
  rw [storeMapDataInDb]
  rcases h : getTripOwner store link with - | uid
  · rfl
  · rcases h2 : getTripByLink store uid link with - | trip
    · simp [h2]
    · simp only [h2]
      rw [dbUpdateTripItineraryData]
      exact getTripOwner_map store _ link'
        (idataMap_preserves uid link _).1 (idataMap_preserves uid link _).2

/-- A trip whose owner lookup succeeds is found by `get_trip_by_link` for that
owner, at a row carrying that link and user id. -/
theorem owner_some_byLink (store : List TripRow) (link : String) (uid : ℕ) :
    getTripOwner store link = some uid →
      ∃ r, getTripByLink store uid link = some r ∧ r.link = link ∧ r.userId = uid := by
  induction store with
  | nil => intro h; exact absurd h (by simp [getTripOwner])
  | cons a rest ih =>
    intro h
    by_cases hb : a.link = link
    · have hbeq : (a.link == link) = true := beq_iff_eq.mpr hb
      simp [getTripOwner, List.find?, hbeq] at h
      have hpred : (a.userId == uid && a.link == link) = true := by
        rw [hbeq, Bool.and_true]
        exact beq_iff_eq.mpr h
      refine ⟨a, ?_, hb, h⟩
      rw [getTripByLink, List.find?, hpred]
    · have hbeq : (a.link == link) = false := beq_eq_false_iff_ne.mpr hb
      rw [getTripOwner, List.find?, hbeq] at h
      obtain ⟨r, hr, hrl, hru⟩ := ih h
      refine ⟨r, ?_, hrl, hru⟩
      have hpred : (a.userId == uid && a.link == link) = false := by
        rw [hbeq, Bool.and_false]
      rw [getTripByLink, List.find?, hpred]
      exact hr

/-- Setting a status through the worker's `update_trip_map_status` makes the
owner's trip show exactly that status. -/
theorem updateW_sets_status (store : List TripRow) (link status : String)
    (err : Option String) (uid : ℕ) (h : getTripOwner store link = some uid) :
    tripMapStatus (updateTripMapStatusW store link status err) uid link = some status := by
  obtain ⟨r, hr, hrl, hru⟩ := owner_some_byLink store link uid h
  rw [updateTripMapStatusW, h]
  show tripMapStatus (dbUpdateTripMapStatus store uid link status err) uid link = some status
  rw [tripMapStatus, dbUpdateTripMapStatus,
    getTripByLink_map store _ uid link (statusMap_preserves uid link status err).1
      (statusMap_preserves uid link status err).2, hr]
  simp [hrl, hru]

/-- `regenerate_map_for_trip` on an owned trip ends with its status `ready`
(the embedded steps are total; the source's exception path to `error` is the
only other exit). -/
theorem regenerate_sets_ready (resp : String → String → GeoResponse) (ρ : String → String)
    (hint : String) (store : List TripRow) (link : String) (wd : WorkerFormat) (uid : ℕ)
    (h : getTripOwner store link = some uid) :
    tripMapStatus (regenerateMapForTrip resp ρ hint store link wd).1 uid link =
      some "ready" := by
  rw [regenerateMapForTrip]
  apply updateW_sets_status
  rw [getTripOwner_storeMapData, getTripOwner_updateW]
  exact h

/- ---------------------------------------------------------------------------
C1 — the circuit breaker and the `ready` terminal state
--------------------------------------------------------------------------- -/

/-- When nothing resolves, the map payload is the empty-markers sentinel with
its error string. -/
theorem buildMapData_unresolved (items : List ItineraryItem) (dest : String)
    (h : ∀ it ∈ items, it.location.has_coordinates = false) :
    buildMapData items dest = ⟨0, 0, 2, [], some "No locations could be geocoded"⟩ := by
  have hfil : mapFilter items dest = [] := by
    rw [mapFilter]
    apply List.filter_eq_nil_iff.mpr
    intro it hit
    simp [h it hit]
  unfold buildMapData
  rw [if_pos hfil]

/-- The circuit breaker: with every lookup failing and every item unresolved,
the walk performs exactly `3 - f` attempts (three, from a fresh counter),
leaves every item exactly as it came in, and ends with the counter at 3. -/
theorem aux_allfail (resp : String → String → GeoResponse) (ρ : String → String)
    (hint : String) (hfail : ∀ q, doGeocodeResult (resp q hint) = none) :
    ∀ (items : List ItineraryItem) (idx f : ℕ),
      (∀ it ∈ items, it.location.has_coordinates = false) →
      f < 3 → idx + (3 - f) ≤ MAX_GEOCODE_LOCATIONS → 3 - f ≤ items.length →
      geocodeLocationsAux resp ρ hint items idx f = ⟨items, 3, 3 - f⟩ := by
  have h50 : MAX_GEOCODE_LOCATIONS = 50 := rfl
  intro items
  induction items with
  | nil =>
    intro idx f _ hf _ hlen
    simp only [List.length_nil] at hlen
    exact absurd hlen (by omega)
  | cons it rest ih =>
    intro idx f hall hf hidx hlen
    have hco : it.location.has_coordinates = false := hall it (List.mem_cons_self it rest)
    have hidxlt : idx < MAX_GEOCODE_LOCATIONS := by
      rw [h50] at hidx ⊢
      omega
    rw [geocodeLocationsAux, if_neg (by simp [hco]), if_pos ⟨hidxlt, hf⟩]
    simp only [geocodeItem_fail resp ρ hint it f hfail]
    by_cases hf3 : f + 1 < 3
    · have harith : 3 - f = 3 - (f + 1) + 1 := by omega
      rw [ih (idx + 1) (f + 1) (fun x hx => hall x (List.mem_cons_of_mem it hx)) hf3
        (by rw [h50] at hidx ⊢; omega)
        (by simp only [List.length_cons] at hlen; omega), harith]
    · have ha : 3 - f = 1 := by omega
      have hb : f + 1 = 3 := by omega
      rw [aux_f_ge3 resp ρ hint rest (idx + 1) (f + 1) (by omega), ha, hb]

/-- C1: with a geocoder that never returns a result, a job of at least three
all-unresolved items performs exactly three attempts (the remaining
unresolved items are never attempted and nothing is modified), and
`regenerate_map_for_trip` still finishes the trip with an empty-markers
`MapData` carrying the explanatory error string and with status `ready`,
not `error`. -/
theorem c1_circuit_breaker (resp : String → String → GeoResponse) (ρ : String → String)
    (hint : String) (store : List TripRow) (link : String) (uid : ℕ) (wd : WorkerFormat)
    (hfail : ∀ q, doGeocodeResult (resp q hint) = none)
    (hunres : ∀ w ∈ wd.items, w.location_lat = none ∨ w.location_lon = none)
    (hlen : 3 ≤ wd.items.length)
    (howner : getTripOwner store link = some uid) :
    (geocodeLocations resp ρ hint (deserializeItinerary wd) 0).attempts = 3 ∧
    (geocodeLocations resp ρ hint (deserializeItinerary wd) 0).items =
      deserializeItinerary wd ∧
    (regenerateMapForTrip resp ρ hint store link wd).2.markers = [] ∧
    (regenerateMapForTrip resp ρ hint store link wd).2.error =
      some "No locations could be geocoded" ∧
    tripMapStatus (regenerateMapForTrip resp ρ hint store link wd).1 uid link =
      some "ready" := by
  have hco : ∀ it ∈ deserializeItinerary wd, it.location.has_coordinates = false := by
    intro it hit
    simp only [deserializeItinerary, List.mem_map] at hit
    obtain ⟨w, hw, rfl⟩ := hit
    rcases hunres w hw with h1 | h1 <;> simp [Location.has_coordinates, h1]
  have hlen2 : 3 - 0 ≤ (deserializeItinerary wd).length := by
    rw [deserializeItinerary, List.length_map]
    omega
  have hmain := aux_allfail resp ρ hint hfail (deserializeItinerary wd) 0 0 hco
    (by omega) (by rw [show MAX_GEOCODE_LOCATIONS = 50 from rfl]; omega) hlen2
  have hout : geocodeLocations resp ρ hint (deserializeItinerary wd) 0 =
      ⟨deserializeItinerary wd, 3, 3 - 0⟩ := by
    rw [geocodeLocations, hmain]
  have hmd : (regenerateMapForTrip resp ρ hint store link wd).2 =
      ⟨0, 0, 2, [], some "No locations could be geocoded"⟩ := by
    show createMapData resp ρ hint (deserializeItinerary wd) = _
    rw [createMapData, hout]
    exact buildMapData_unresolved _ _ hco
  exact ⟨by rw [hout], by rw [hout], by rw [hmd], by rw [hmd],
    regenerate_sets_ready resp ρ hint store link wd uid howner⟩

/-- A stored day-grouped item. -/
def sampleDbItem : DbItem := ⟨"Grand Hotel", "", "", "Vienna", "", "hotel", ""⟩

/-- A stored day-grouped itinerary. -/
def sampleDbData : DbItineraryData :=
  { title := "Vienna Trip", days := [⟨"2025-05-01", some 1, [sampleDbItem]⟩], ideas := []
    start_date := "", end_date := "", travelers := [], mapData := none }

/-- A trip row stuck in `processing` with stored itinerary data. -/
def sampleRow : TripRow := ⟨1, "trip.html", "Vienna Trip", "processing", none, some sampleDbData⟩

/-- A one-trip store. -/
def sampleStore : List TripRow := [sampleRow]

/-- An unresolved worker-format item. -/
def sampleWorkerItem : WorkerItem :=
  { title := "Grand Hotel", description := "", category := "hotel", day_number := none
    date := "", start_time := "", end_time := "", location_name := "Vienna"
    location_address := "", location_lat := none, location_lon := none
    confirmation_number := "", notes := "", is_home_location := false, website_url := "" }

/-- A three-item job payload. -/
def threeItemWd : WorkerFormat := ⟨"T", "", "", [], List.replicate 3 sampleWorkerItem⟩

/-- Witness for `c1_circuit_breaker` on a concrete three-item job against an
always-empty geocoder. -/
theorem c1_witness :
    (∀ q, doGeocodeResult (alwaysNoResults q "") = none) ∧
    (∀ w ∈ threeItemWd.items, w.location_lat = none ∨ w.location_lon = none) ∧
    3 ≤ threeItemWd.items.length ∧
    getTripOwner sampleStore "trip.html" = some 1 ∧
    (geocodeLocations alwaysNoResults noIataResolver ""
      (deserializeItinerary threeItemWd) 0).attempts = 3 ∧
    tripMapStatus (regenerateMapForTrip alwaysNoResults noIataResolver "" sampleStore
      "trip.html" threeItemWd).1 1 "trip.html" = some "ready" :=
  have hc1 := c1_circuit_breaker alwaysNoResults noIataResolver "" sampleStore "trip.html" 1
    threeItemWd (fun _ => rfl) (by decide) (by decide) (by decide)
  ⟨fun _ => rfl, by decide, by decide, by decide, hc1.1, hc1.2.2.2.2⟩

/- ---------------------------------------------------------------------------
C5 — recovery of stale jobs
--------------------------------------------------------------------------- -/

/-- C5: every stored trip whose status is `pending` or `processing` and whose
itinerary snapshot is non-null is re-enqueued at worker startup with the
day-grouped shape translated to the flat worker format, and processing that
job ends with the trip's status `ready` or `error` — never left at
`processing`. -/
theorem c5_recovery (resp : String → String → GeoResponse) (ρ : String → String)
    (hint : String) (store : List TripRow) (row : TripRow) (d : DbItineraryData)
    (hmem : row ∈ store)
    (hstatus : row.mapStatus = "pending" ∨ row.mapStatus = "processing")
    (hdata : row.itineraryData = some d)
    (howner : getTripOwner store row.link = some row.userId) :
    (row.link, convertItineraryData d row.title) ∈ recoverStaleTasks store ∧
    (tripMapStatus (regenerateMapForTrip resp ρ hint store row.link
        (convertItineraryData d row.title)).1 row.userId row.link = some "ready" ∨
      tripMapStatus (regenerateMapForTrip resp ρ hint store row.link
        (convertItineraryData d row.title)).1 row.userId row.link = some "error") := by
  constructor
  · rw [recoverStaleTasks]
    apply List.mem_filterMap.mpr
    refine ⟨row, ?_, ?_⟩
    · rw [getPendingGeocodingTrips]
      apply List.mem_filter.mpr
      refine ⟨hmem, ?_⟩
      rcases hstatus with h | h <;> simp [h, hdata]
    · rw [convertItineraryDataOpt, hdata]
      rfl
  · exact Or.inl (regenerate_sets_ready resp ρ hint store row.link _ row.userId howner)

/-- Witness for `c5_recovery` on a one-trip store stuck in `processing`. -/
theorem c5_witness :
    sampleRow ∈ sampleStore ∧
    sampleRow.mapStatus = "processing" ∧
    sampleRow.itineraryData = some sampleDbData ∧
    getTripOwner sampleStore sampleRow.link = some sampleRow.userId ∧
    (sampleRow.link, convertItineraryData sampleDbData sampleRow.title) ∈
      recoverStaleTasks sampleStore ∧
    (tripMapStatus (regenerateMapForTrip alwaysNoResults noIataResolver "" sampleStore
        sampleRow.link (convertItineraryData sampleDbData sampleRow.title)).1
        sampleRow.userId sampleRow.link = some "ready" ∨
      tripMapStatus (regenerateMapForTrip alwaysNoResults noIataResolver "" sampleStore
        sampleRow.link (convertItineraryData sampleDbData sampleRow.title)).1
        sampleRow.userId sampleRow.link = some "error") :=
  have h := c5_recovery alwaysNoResults noIataResolver "" sampleStore sampleRow sampleDbData
    (by decide) (Or.inr rfl) rfl (by decide)
  ⟨by decide, rfl, rfl, by decide, h.1, h.2⟩

end Libertas
